import Mathlib

/-!
Shallow embedding of `src/app.py` (mdpy): a single-window Markdown
editor/previewer with light/dark theming and basic file open/save.

The GUI widgets, the markdown2 converter and the file system are external
to the repository; the converter is modelled as a pure function
`String → String` (per the spec, the converter takes raw text and returns
an HTML fragment, and render is deterministic), and the file system as an
explicit store with fallible read/write.  All application logic
(`MarkdownViewer`'s methods) is translated into explicit state passing on
an `AppState` record whose fields mirror the instance attributes and the
observable widget state (editor text, preview HTML, applied stylesheet,
window title, shown error dialogs).
-/

namespace Mdpy

/-- Configuration settings for the application (dataclass `AppConfig`). -/
structure AppConfig where
  default_width : Nat
  default_height : Nat
  window_title : String
  editor_font_family : String
  editor_font_size : Nat
deriving Repr, DecidableEq

/-- The dataclass defaults of `AppConfig` in `src/app.py`. -/
def defaultConfig : AppConfig :=
  ⟨1200, 800, "Joe\x27s Markdown Viewer", "Menlo", 14⟩

/-- Stores the CSS for a specific theme (dataclass `Theme`):
`pygments_css`, `html_css`, `app_stylesheet`. -/
structure Theme where
  pygments_css : String
  html_css : String
  app_stylesheet : String
deriving Repr, DecidableEq

def light_html_css : String :=
  "\n            body \x7b\n                font-family: -apple-system, BlinkMacSystemFont, \"Segoe UI\", \"Noto Sans\", Helvetica, Arial, sans-serif;\n                line-height: 1.6; background-color: #ffffff; color: #24292e; padding: 10px;\n            \x7d\n            h1, h2, h3, h4, h5, h6 \x7b border-bottom: 1px solid #eaecef; color: #24292e; \x7d\n            a \x7b color: #0366d6; \x7d\n            code \x7b background-color: rgba(27,31,35,.05); \x7d\n            blockquote \x7b color: #6a737d; border-left: .25em solid #dfe2e5; \x7d\n            body > table th, body > table td \x7b border: 1px solid #dfe2e5; \x7d\n            body > table tr \x7b background-color: #fff; border-top: 1px solid #c6cbd1; \x7d\n            body > table tr:nth-child(2n) \x7b background-color: #f6f8fa; \x7d\n            hr \x7b background-color: #e1e4e8; \x7d\n        "

def light_app_stylesheet : String :=
  "\n            QMainWindow, QMenuBar, QMenu \x7b background-color: #f6f8fa; color: #24292e; \x7d\n            QMenuBar::item:selected, QMenu::item:selected \x7b background-color: #e1e4e8; \x7d\n            QTextEdit \x7b background-color: #ffffff; color: #24292e; border: 1px solid #d1d5da; selection-background-color: #0366d6; selection-color: #ffffff; \x7d\n            QSplitter::handle \x7b background-color: #e1e4e8; \x7d\n            QScrollBar::handle \x7b background: #d1d5da; \x7d\n        "

def dark_html_css : String :=
  "\n            body \x7b\n                font-family: -apple-system, BlinkMacSystemFont, \"Segoe UI\", \"Noto Sans\", Helvetica, Arial, sans-serif;\n                line-height: 1.6; background-color: #2b2b2b; color: #f0f0f0; padding: 10px;\n            \x7d\n            h1, h2, h3, h4, h5, h6 \x7b border-bottom: 1px solid #444; color: #f0f0f0; \x7d\n            a \x7b color: #61afef; \x7d\n            code \x7b background-color: #3c3c3c; \x7d\n            blockquote \x7b color: #999; border-left: .25em solid #555; \x7d\n            body > table th, body > table td \x7b border: 1px solid #444; \x7d\n            body > table tr \x7b background-color: #2b2b2b; border-top: 1px solid #444; \x7d\n            body > table tr:nth-child(2n) \x7b background-color: #313131; \x7d\n            hr \x7b background-color: #444; \x7d\n        "

def dark_app_stylesheet : String :=
  "\n            QMainWindow, QWidget \x7b background-color: #2b2b2b; color: #f0f0f0; \x7d\n            QMenuBar, QMenu \x7b background-color: #3c3c3c; color: #f0f0f0; \x7d\n            QMenuBar::item:selected, QMenu::item:selected \x7b background-color: #555; \x7d\n            QTextEdit \x7b background-color: #2b2b2b; color: #f8f8f2; border: 1px solid #444; selection-background-color: #4a4a4a; \x7d\n            QSplitter::handle \x7b background-color: #3c3c3c; \x7d\n            QScrollBar::handle \x7b background: #555; \x7d\n        "

def template_head : String :=
  "\n        <html>\n        <head>\n            <style>\n                /* Shared Styles */\n                h1, h2, h3, h4, h5, h6 \x7b\n                    font-weight: 600; line-height: 1.25; padding-bottom: .3em;\n                \x7d\n                a:hover \x7b text-decoration: underline; \x7d\n                code \x7b\n                    padding: .2em .4em; margin: 0;\n                    font-family: \"SFMono-Regular\", Consolas, \"Liberation Mono\", Menlo, Courier, monospace;\n                    font-size: 85%; border-radius: 6px;\n                \x7d\n                .codehilite \x7b border-radius: 6px; \x7d\n                blockquote \x7b padding: 0 1em; margin-left: 0; \x7d\n                body > table \x7b\n                    border-collapse: collapse; margin: 1rem 0; display: block;\n                    width: 100%; overflow: auto;\n                \x7d\n                hr \x7b border: 0; height: .25em; padding: 0; margin: 24px 0; \x7d\n                ul, ol \x7b padding-left: 2em; \x7d\n\n                /* Theme-specific styles */\n                "

def template_mid : String :=
  "\n                "

def template_pre_body : String :=
  "\n            </style>\n        </head>\n        <body>\n            "

def template_tail : String :=
  "\n        </body>\n        </html>\n        "

def template_head_shared_pre : String :=
  "\n        <html>\n        <head>\n            <style>\n                "

def shared_style_rules : String :=
  "/* Shared Styles */\n                h1, h2, h3, h4, h5, h6 \x7b\n                    font-weight: 600; line-height: 1.25; padding-bottom: .3em;\n                \x7d\n                a:hover \x7b text-decoration: underline; \x7d\n                code \x7b\n                    padding: .2em .4em; margin: 0;\n                    font-family: \"SFMono-Regular\", Consolas, \"Liberation Mono\", Menlo, Courier, monospace;\n                    font-size: 85%; border-radius: 6px;\n                \x7d\n                .codehilite \x7b border-radius: 6px; \x7d\n                blockquote \x7b padding: 0 1em; margin-left: 0; \x7d\n                body > table \x7b\n                    border-collapse: collapse; margin: 1rem 0; display: block;\n                    width: 100%; overflow: auto;\n                \x7d\n                hr \x7b border: 0; height: .25em; padding: 0; margin: 24px 0; \x7d\n                ul, ol \x7b padding-left: 2em; \x7d\n\n                "

def template_head_shared_post : String :=
  "/* Theme-specific styles */\n                "

/-- `MarkdownViewer._create_themes`.  The two pygments CSS strings are
produced by the external pygments library (`HtmlFormatter(...).get_style_defs`)
or are empty when pygments is absent, so they are parameters here; the
document CSS and chrome CSS are the static string constants above. -/
def create_themes (light_pygments_css dark_pygments_css : String) : Theme × Theme :=
  (⟨light_pygments_css, light_html_css, light_app_stylesheet⟩,
   ⟨dark_pygments_css, dark_html_css, dark_app_stylesheet⟩)

/-- The observable state of a `MarkdownViewer` instance: its Python instance
attributes (`config`, `current_file_path`, `is_dark_mode`, the two themes)
together with the widget state the methods read or write (editor text,
preview HTML, the stylesheet applied via `setStyleSheet`, the window title,
the checked state of the dark-mode action) and the list of error-dialog
messages shown so far (`QMessageBox.critical` calls). -/
structure AppState where
  config : AppConfig
  current_file_path : Option String
  is_dark_mode : Bool
  light_theme : Theme
  dark_theme : Theme
  editor_text : String
  preview_html : String
  app_style : String
  window_title : String
  dark_mode_checked : Bool
  dialogs : List String
deriving Repr, DecidableEq

/-- Python truthiness of an optional string: `None` and `""` are falsy.
The source guards `if self.current_file_path:` and `if file_path:` use it. -/
def pyTruthy : Option String → Bool
  | none => false
  | some s => !s.isEmpty

/-- The theme selected by `self.dark_theme if self.is_dark_mode else self.light_theme`
(the expression appears in `_apply_theme` and `_update_preview`). -/
def active_theme (s : AppState) : Theme :=
  if s.is_dark_mode then s.dark_theme else s.light_theme

/-- The f-string `styled_html` of `MarkdownViewer._update_preview`, as a
function of the already-converted fragment `html_output` and the active
theme: the fixed template with `theme.pygments_css`, `theme.html_css` and
`html_output` interpolated at their three holes. -/
def styled_html (html_output : String) (theme : Theme) : String :=
  template_head ++ theme.pygments_css ++ template_mid ++ theme.html_css
    ++ template_pre_body ++ html_output ++ template_tail

/-- `MarkdownViewer._update_preview`: convert the editor text with the
(reused) converter, build `styled_html` with the active theme, and push it
into the preview pane (`self.preview.setHtml`). `conv` is the external
markdown2 converter, modelled from the spec as a pure text → fragment
function. -/
def update_preview (conv : String → String) (s : AppState) : AppState :=
  let markdown_text := s.editor_text
  let html_output := conv markdown_text
  let theme := active_theme s
  { s with preview_html := styled_html html_output theme }

/-- `MarkdownViewer._apply_theme`: apply the active theme's chrome
stylesheet (`self.setStyleSheet`) and re-render the preview. -/
def apply_theme (conv : String → String) (s : AppState) : AppState :=
  let theme := active_theme s
  update_preview conv { s with app_style := theme.app_stylesheet }

/-- `MarkdownViewer._toggle_dark_mode`: flip the flag, update the checkable
action, re-apply the theme. -/
def toggle_dark_mode (conv : String → String) (s : AppState) : AppState :=
  let s1 := { s with is_dark_mode := !s.is_dark_mode }
  let s2 := { s1 with dark_mode_checked := s1.is_dark_mode }
  apply_theme conv s2

/-- `self.editor.setPlainText t` together with the `textChanged` signal it
fires: the connected slot is `_update_preview` (see `_setup_ui`), so setting
the text synchronously re-renders the preview.  User edits reach the state
through the same path. -/
def set_plain_text (conv : String → String) (t : String) (s : AppState) : AppState :=
  update_preview conv { s with editor_text := t }

/-- `MarkdownViewer._update_window_title`: title is the configured title,
prefixed with `"<path> - "` when `current_file_path` is truthy. -/
def update_window_title (s : AppState) : AppState :=
  let title := s.config.window_title
  let title := if pyTruthy s.current_file_path
    then (s.current_file_path.getD "") ++ " - " ++ title
    else title
  { s with window_title := title }

/-- Modelled from the spec: the file system the `open`/`write` calls of
`_open_file` and `_save_logic` touch is not part of this repository; it is
modelled as a finite store of UTF-8 text files plus a writability predicate,
with reads failing on missing paths and writes failing on non-writable
paths (spec §4.4: "on any I/O error, surfaces a blocking error dialog"). -/
structure FileSystem where
  files : List (String × String)
  writable : String → Bool

/-- Modelled from the spec: `open(path, "r", encoding="utf-8").read()` —
returns the stored content, or an I/O error message for a missing path. -/
def FileSystem.read (fs : FileSystem) (path : String) : Except String String :=
  match fs.files.lookup path with
  | some content => Except.ok content
  | none => Except.error ("No such file or directory: " ++ path)

/-- Modelled from the spec: `open(path, "w", encoding="utf-8").write(text)` —
stores the text at the path, or raises an I/O error on a non-writable path. -/
def FileSystem.write (fs : FileSystem) (path text : String) :
    Except String FileSystem :=
  if fs.writable path then Except.ok { fs with files := (path, text) :: fs.files }
  else Except.error ("Permission denied: " ++ path)

/-- `MarkdownViewer._open_file`.  `file_path` is the result of the native
open dialog (`QFileDialog.getOpenFileName`), the empty string when the user
cancels; the Python guard `if file_path:` skips everything then.  On a read
error the except-branch shows a critical dialog and touches nothing else;
on success `setPlainText` (which re-renders), then the path, then the title. -/
def open_file (conv : String → String) (fs : FileSystem) (file_path : String)
    (s : AppState) : AppState :=
  if file_path.isEmpty then s
  else
    match fs.read file_path with
    | Except.ok content =>
        let s1 := set_plain_text conv content s
        let s2 := { s1 with current_file_path := some file_path }
        update_window_title s2
    | Except.error e =>
        { s with dialogs := s.dialogs ++ ["Could not open file: " ++ e] }

/-- `MarkdownViewer._save_logic`: write the editor text, then (only if the
write did not raise) set the current path and update the title; on an
exception show a critical dialog and leave the rest of the state alone. -/
def save_logic (fs : FileSystem) (file_path : String) (s : AppState) :
    AppState × FileSystem :=
  match fs.write file_path s.editor_text with
  | Except.ok fs2 =>
      let s1 := { s with current_file_path := some file_path }
      (update_window_title s1, fs2)
  | Except.error e =>
      ({ s with dialogs := s.dialogs ++ ["Could not save file: " ++ e] }, fs)

/-- `MarkdownViewer._save_file_as`.  `file_path` is the save-dialog result
(`QFileDialog.getSaveFileName`), empty on cancel (guard `if file_path:`). -/
def save_file_as (fs : FileSystem) (file_path : String) (s : AppState) :
    AppState × FileSystem :=
  if file_path.isEmpty then (s, fs)
  else save_logic fs file_path s

/-- `MarkdownViewer._save_file`: save to the current path when one is set
(Python truthiness), otherwise delegate to `_save_file_as`, whose dialog
result is the `dialog_path` parameter. -/
def save_file (fs : FileSystem) (dialog_path : String) (s : AppState) :
    AppState × FileSystem :=
  if pyTruthy s.current_file_path then
    save_logic fs (s.current_file_path.getD "") s
  else save_file_as fs dialog_path s

/-- The light theme is active iff `is_dark_mode` is false. -/
def light_active (s : AppState) : Bool := !s.is_dark_mode

/-- The dark theme is active iff `is_dark_mode` is true. -/
def dark_active (s : AppState) : Bool := s.is_dark_mode

/-- Spec §3 invariant, first half: exactly one of the light and dark themes
is active. -/
def one_theme_active (s : AppState) : Prop :=
  (light_active s = true ∧ dark_active s = false) ∨
  (light_active s = false ∧ dark_active s = true)

/-- Spec §3 invariant, second half: the preview HTML reflects the editor's
current text rendered with the active theme (no stale preview). -/
def PreviewInv (conv : String → String) (s : AppState) : Prop :=
  s.preview_html = styled_html (conv s.editor_text) (active_theme s)

/-- A state whose applied chrome stylesheet and preview HTML agree with its
active theme and editor text — the condition every event handler
re-establishes before returning to the event loop. -/
def Settled (conv : String → String) (s : AppState) : Prop :=
  s.app_style = (active_theme s).app_stylesheet ∧
  s.preview_html = styled_html (conv s.editor_text) (active_theme s)

/-- A concrete stand-in for the external markdown converter, used by the
concrete evaluations below. -/
def convW : String → String := fun t => "<p>" ++ t ++ "</p>"

/-- A concrete file system holding one file, with every path writable. -/
def fsW : FileSystem := ⟨[("notes.md", "# hi\n")], fun _ => true⟩

/-- A concrete file system with no files and no writable path. -/
def fsRO : FileSystem := ⟨[], fun _ => false⟩

/-- A concrete application state (no current file, dark mode, empty
pygments CSS as when the highlighter is absent). -/
def sW : AppState :=
  { config := defaultConfig
    current_file_path := none
    is_dark_mode := true
    light_theme := (create_themes "" "").1
    dark_theme := (create_themes "" "").2
    editor_text := "hello *md*"
    preview_html := ""
    app_style := ""
    window_title := ""
    dark_mode_checked := true
    dialogs := [] }

/-- `sW` with a current file path set, as after a successful open or save. -/
def sPathW : AppState := { sW with current_file_path := some "notes.md" }

/-- A settled concrete state: `sW` right after `_apply_theme` ran. -/
def sSettledW : AppState := apply_theme convW sW

end Mdpy

namespace Mdpy

/-- C1: the preview render is deterministic.  Two renders from states with
identical editor text and identical active theme produce identical preview
HTML, and re-running the render on its own result reproduces the same
preview (the reused markdown2 converter instance is modelled, per the
spec's determinism guarantee, as the fixed pure function `conv`). -/
theorem render_deterministic (conv : String → String) (s1 s2 : AppState)
    (ht : s1.editor_text = s2.editor_text)
    (hth : active_theme s1 = active_theme s2) :
    (update_preview conv s1).preview_html = (update_preview conv s2).preview_html ∧
    (update_preview conv (update_preview conv s1)).preview_html
      = (update_preview conv s1).preview_html := by
  constructor
  · show styled_html (conv s1.editor_text) (active_theme s1)
      = styled_html (conv s2.editor_text) (active_theme s2)
    rw [ht, hth]
  · rfl

/-- Witness for C1 at a concrete state. -/
theorem render_deterministic_witness :
    (update_preview convW sW).preview_html = (update_preview convW sW).preview_html ∧
    (update_preview convW (update_preview convW sW)).preview_html
      = (update_preview convW sW).preview_html :=
  render_deterministic convW sW sW rfl rfl

set_option maxRecDepth 100000 in
/-- C2, counterexample: the claim says the render interpolates all three of
the active theme's CSS strings — including the chrome CSS — into the HTML
document.  It does not: at the dark theme (empty pygments CSS) and the empty
fragment, the returned document contains no occurrence of the theme's
`app_stylesheet` (the document has no character `Q`, while the chrome CSS
starts with `QMainWindow`). -/
theorem chrome_css_not_in_document :
    ¬ ∃ a b : String,
      styled_html "" (create_themes "" "").2 = a ++ dark_app_stylesheet ++ b := by
  rintro ⟨a, b, h⟩
  have hd : (styled_html "" (create_themes "" "").2).data
      = a.data ++ (dark_app_stylesheet.data ++ b.data) := by
    rw [h, String.data_append, String.data_append, List.append_assoc]
  have hQ : 'Q' ∈ (styled_html "" (create_themes "" "").2).data := by
    rw [hd]
    exact List.mem_append.mpr (Or.inr (List.mem_append.mpr (Or.inl (by decide))))
  revert hQ
  decide

set_option maxRecDepth 100000 in
/-- C2 (amended): the render interpolates the converter's fragment and two
of the active theme's CSS strings — the syntax CSS and the document CSS —
into the fixed document template, with the shared style rules
(heading weight, link hover, code padding, table layout, horizontal-rule
sizing) appearing in the template head before the theme-specific rules;
the chrome CSS is not interpolated into the document but applied separately
as the widget stylesheet by `_apply_theme`. -/
theorem render_interpolation (conv : String → String) (s : AppState) :
    (update_preview conv s).preview_html
      = template_head ++ (active_theme s).pygments_css ++ template_mid
          ++ (active_theme s).html_css ++ template_pre_body
          ++ conv s.editor_text ++ template_tail ∧
    template_head
      = template_head_shared_pre ++ shared_style_rules ++ template_head_shared_post ∧
    (apply_theme conv s).app_style = (active_theme s).app_stylesheet :=
  ⟨rfl, rfl, rfl⟩

/-- C3: the save logic is write-first.  When the write to the target path
raises, the current file path, the window title and the file store are
unchanged (and only an error dialog is added); the current path is rebound
to the target path only when the write did not raise. -/
theorem save_as_write_first (fs : FileSystem) (p : String) (s : AppState)
    (hp : p.isEmpty = false) :
    (∀ e, fs.write p s.editor_text = Except.error e →
      (save_file_as fs p s).1.current_file_path = s.current_file_path ∧
      (save_file_as fs p s).1.window_title = s.window_title ∧
      (save_file_as fs p s).1.editor_text = s.editor_text ∧
      (save_file_as fs p s).2 = fs) ∧
    (∀ fs2, fs.write p s.editor_text = Except.ok fs2 →
      (save_file_as fs p s).1.current_file_path = some p ∧
      (save_file_as fs p s).2 = fs2) := by
  refine ⟨fun e he => ?_, fun fs2 hok => ?_⟩
  · simp [save_file_as, hp, save_logic, he]
  · simp [save_file_as, hp, save_logic, hok, update_window_title]

/-- Witness for C3: saving to a non-writable path leaves the current path
and the store unchanged. -/
theorem save_as_write_first_witness :
    (save_file_as fsRO "out.md" sW).1.current_file_path = sW.current_file_path ∧
    (save_file_as fsRO "out.md" sW).2 = fsRO :=
  ⟨((save_as_write_first fsRO "out.md" sW rfl).1 _ rfl).1,
   ((save_as_write_first fsRO "out.md" sW rfl).1 _ rfl).2.2.2⟩

/-- C4: when the read of the chosen path raises an I/O error, `_open_file`
returns normally (no escaping exception in the model), appends exactly one
error dialog, and changes nothing else: path, editor text, preview and
title keep their previous values. -/
theorem open_file_error_frame (conv : String → String) (fs : FileSystem)
    (p : String) (s : AppState) (e : String)
    (hp : p.isEmpty = false) (h : fs.read p = Except.error e) :
    open_file conv fs p s
      = { s with dialogs := s.dialogs ++ ["Could not open file: " ++ e] } ∧
    (open_file conv fs p s).current_file_path = s.current_file_path ∧
    (open_file conv fs p s).editor_text = s.editor_text ∧
    (open_file conv fs p s).preview_html = s.preview_html ∧
    (open_file conv fs p s).window_title = s.window_title := by
  have h1 : open_file conv fs p s
      = { s with dialogs := s.dialogs ++ ["Could not open file: " ++ e] } := by
    simp [open_file, hp, h]
  exact ⟨h1, by simp [h1], by simp [h1], by simp [h1], by simp [h1]⟩

/-- Witness for C4: opening a missing path on the empty file system. -/
theorem open_file_error_frame_witness :
    (open_file convW fsRO "missing.md" sW).current_file_path
      = sW.current_file_path ∧
    (open_file convW fsRO "missing.md" sW).editor_text = sW.editor_text :=
  ⟨(open_file_error_frame convW fsRO "missing.md" sW _ rfl rfl).2.1,
   (open_file_error_frame convW fsRO "missing.md" sW _ rfl rfl).2.2.1⟩

/-- C5: on a settled state (one whose applied stylesheet and preview agree
with its active theme and editor text, as after any event handler ran),
toggling dark mode twice returns the applied chrome stylesheet and the
preview HTML to values equal to their pre-toggle values. -/
theorem toggle_involution (conv : String → String) (s : AppState)
    (h : Settled conv s) :
    (toggle_dark_mode conv (toggle_dark_mode conv s)).app_style = s.app_style ∧
    (toggle_dark_mode conv (toggle_dark_mode conv s)).preview_html
      = s.preview_html := by
  obtain ⟨h1, h2⟩ := h
  cases hb : s.is_dark_mode <;>
    simp [toggle_dark_mode, apply_theme, update_preview, active_theme, hb] at h1 h2 ⊢ <;>
    exact ⟨h1.symm, h2.symm⟩

/-- Witness for C5 at a concrete settled state. -/
theorem toggle_involution_witness :
    (toggle_dark_mode convW (toggle_dark_mode convW sSettledW)).app_style
      = sSettledW.app_style ∧
    (toggle_dark_mode convW (toggle_dark_mode convW sSettledW)).preview_html
      = sSettledW.preview_html :=
  toggle_involution convW sSettledW ⟨rfl, rfl⟩

/-- C6: the save/open pair is a round-trip.  Saving the editor text to a
writable path via `_save_file_as` and then opening that same path yields
editor content equal to the saved text. -/
theorem save_open_round_trip (conv : String → String) (fs : FileSystem)
    (p : String) (s : AppState)
    (hp : p.isEmpty = false) (hw : fs.writable p = true) :
    (open_file conv (save_file_as fs p s).2 p (save_file_as fs p s).1).editor_text
      = s.editor_text := by
  simp [save_file_as, hp, save_logic, FileSystem.write, hw, open_file,
        FileSystem.read, List.lookup, set_plain_text, update_preview,
        update_window_title]

/-- Witness for C6 on the concrete all-writable file system. -/
theorem save_open_round_trip_witness :
    (open_file convW (save_file_as fsW "out.md" sW).2 "out.md"
        (save_file_as fsW "out.md" sW).1).editor_text
      = sW.editor_text :=
  save_open_round_trip convW fsW "out.md" sW rfl rfl

/-- C7: after any edit, programmatic `setPlainText` (as on open) or theme
toggle settles, the preview HTML equals the render of the current editor
text with the active theme; exactly one of the light and dark themes is
active in every state; and `_open_file` preserves the preview invariant on
all of its paths (cancel, error, success). -/
theorem preview_invariant (conv : String → String) (fs : FileSystem)
    (t file_path : String) (s : AppState) :
    (∀ s2 : AppState, one_theme_active s2) ∧
    PreviewInv conv (set_plain_text conv t s) ∧
    PreviewInv conv (toggle_dark_mode conv s) ∧
    (PreviewInv conv s → PreviewInv conv (open_file conv fs file_path s)) := by
  refine ⟨fun s2 => ?_, rfl, rfl, fun h => ?_⟩
  · cases hb : s2.is_dark_mode <;>
      simp [one_theme_active, light_active, dark_active, hb]
  · by_cases hp : file_path.isEmpty
    · simpa [open_file, hp] using h
    · simp only [open_file, hp]
      cases hr : fs.read file_path with
      | ok content =>
          simp [PreviewInv, set_plain_text, update_preview,
                update_window_title, active_theme, styled_html]
      | error e => simpa [PreviewInv, active_theme] using h

/-- Witness for C7: the open-file branch of the invariant at a concrete
settled state. -/
theorem preview_invariant_witness :
    PreviewInv convW (open_file convW fsW "notes.md" sSettledW) :=
  (preview_invariant convW fsW "x" "notes.md" sSettledW).2.2.2 rfl

/-- C8: with a (truthy) current file path set, `_save_file` saves to that
path via `_save_logic` without consulting the save dialog (its result is
irrelevant), and on a writable path the store afterwards holds the current
editor text at that path; with no current path it delegates to
`_save_file_as` and performs no write of its own. -/
theorem save_file_dispatch (fs : FileSystem) (dialog_path : String)
    (s : AppState) :
    (∀ p, s.current_file_path = some p → p.isEmpty = false →
      save_file fs dialog_path s = save_logic fs p s ∧
      (∀ d2, save_file fs d2 s = save_file fs dialog_path s) ∧
      (fs.writable p = true →
        (save_file fs dialog_path s).2.files.lookup p = some s.editor_text)) ∧
    (s.current_file_path = none →
      save_file fs dialog_path s = save_file_as fs dialog_path s) := by
  refine ⟨fun p hp hne => ?_, fun hn => ?_⟩
  · have ht : pyTruthy s.current_file_path = true := by simp [pyTruthy, hp, hne]
    refine ⟨by simp [save_file, ht, hp, pyTruthy, hne],
            fun d2 => by simp [save_file, ht], fun hw => ?_⟩
    simp [save_file, ht, hp, pyTruthy, hne, save_logic, FileSystem.write, hw,
          List.lookup, update_window_title]
  · simp [save_file, pyTruthy, hn]

/-- Witness for C8 at a concrete state with a current path. -/
theorem save_file_dispatch_witness :
    save_file fsW "ignored" sPathW = save_logic fsW "notes.md" sPathW ∧
    (save_file fsW "ignored" sPathW).2.files.lookup "notes.md"
      = some sPathW.editor_text :=
  ⟨((save_file_dispatch fsW "ignored" sPathW).1 "notes.md" rfl rfl).1,
   ((save_file_dispatch fsW "ignored" sPathW).1 "notes.md" rfl rfl).2.2 rfl⟩

/-- C9: `_update_window_title` sets the window title to
`"<currentPath> - <configured title>"` when a (truthy) path is set, and to
exactly the configured title when no path is set. -/
theorem window_title_format (s : AppState) :
    (s.current_file_path = none →
      (update_window_title s).window_title = s.config.window_title) ∧
    (∀ p, s.current_file_path = some p → p.isEmpty = false →
      (update_window_title s).window_title
        = p ++ " - " ++ s.config.window_title) := by
  refine ⟨fun h => ?_, fun p hp hne => ?_⟩
  · simp [update_window_title, pyTruthy, h]
  · simp [update_window_title, pyTruthy, hp, hne]

/-- Witness for C9 at concrete states with and without a current path. -/
theorem window_title_format_witness :
    (update_window_title sW).window_title = sW.config.window_title ∧
    (update_window_title sPathW).window_title
      = "notes.md" ++ " - " ++ sPathW.config.window_title :=
  ⟨(window_title_format sW).1 rfl,
   (window_title_format sPathW).2 "notes.md" rfl rfl⟩

/-- C10: cancelling the open or save-as dialog (empty path result) is a
complete no-op: no file is read or written and the state is unchanged. -/
theorem dialog_cancel_noop (conv : String → String) (fs : FileSystem)
    (s : AppState) :
    open_file conv fs "" s = s ∧ save_file_as fs "" s = (s, fs) :=
  ⟨rfl, rfl⟩

end Mdpy
